import Mathlib

/-!  Verification development for the a2a-pdf-contentsuite-workflow-example
repository: a shallow embedding of the agent handlers, task workers, webhook
notifier and gateway dispatcher, together with theorems settling the frozen
claims about them.

Conventions of the embedding:
* External collaborators (the PyMuPDF text extractor, the Gemini TTS API,
  HTTP transport, the file system) are opaque per the spec; their outcomes
  enter the model as explicit parameters or oracle functions.
* Python exceptions are modelled with `Except`/`Option`; Python truthiness of
  optional strings is modelled explicitly.
* Wall-clock timestamps and freshly generated uuid hex strings are inputs
  passed in as parameters.
-/

/-- Python-style whitespace test used by `str.strip` / `str.split`. -/
def isSpaceChar (c : Char) : Bool :=
  c == ' ' || c == '\t' || c == '\n' || c == '\r' || c == '\x0b' || c == '\x0c'

/-- Python `str.strip()`: drop whitespace from both ends. -/
def stripText (s : String) : String :=
  String.mk (((s.data.dropWhile isSpaceChar).reverse.dropWhile isSpaceChar).reverse)

/-- Python `sep.join(xs)`. -/
def joinWith (sep : String) : List String → String
  | [] => ""
  | [s] => s
  | s :: rest => s ++ sep ++ joinWith sep rest

/-- Helper for `str.split()`: whitespace-separated words of a char list
(`acc` holds the reversed current word). -/
def splitWordsAux : List Char → List Char → List (List Char)
  | [], acc => if acc.isEmpty then [] else [acc.reverse]
  | c :: r, acc =>
    if isSpaceChar c then
      if acc.isEmpty then splitWordsAux r [] else acc.reverse :: splitWordsAux r []
    else splitWordsAux r (c :: acc)

/-- Python `str.split()` with no separator: maximal runs of non-whitespace. -/
def splitWords (s : String) : List String :=
  (splitWordsAux s.data []).map String.mk

/-- Python `len(s.split())`. -/
def wordCountOf (s : String) : Nat := (splitWords s).length

/-- Python `s.startswith(p)`. -/
def startsWithText (s p : String) : Bool := p.data.isPrefixOf s.data

/-- Fuel-driven removal of every occurrence of `pat` (Python
`s.replace(pat, "")`); fuel is the length of `s`, enough for every match. -/
def removeOccAux : Nat → List Char → List Char → List Char
  | 0, s, _ => s
  | _ + 1, [], _ => []
  | n + 1, c :: rest, pat =>
    if pat.isPrefixOf (c :: rest) then
      removeOccAux n (List.drop pat.length (c :: rest)) pat
    else c :: removeOccAux n rest pat

/-- Python `s.replace(pat, "")` for non-empty `pat`. -/
def removeOccurrences (s pat : String) : String :=
  String.mk (removeOccAux s.data.length s.data pat.data)

/-- Chunk of a char list up to (exclusive) the next comma; second half of
Python `s.split(",")[1]`. -/
def takeUntilComma : List Char → List Char
  | [] => []
  | c :: r => if c == ',' then [] else c :: takeUntilComma r

/-- Python `s.split(",")[1]`: the chunk between the first comma and the
following comma (or the end). -/
def afterFirstCommaChunk : List Char → List Char
  | [] => []
  | c :: r => if c == ',' then takeUntilComma r else afterFirstCommaChunk r

/-- Python exceptions that the claims distinguish. -/
inductive PyError
  | unboundLocalError (name : String)
  | attributeError (what : String)
  deriving DecidableEq, Repr

/-- Modelled from the spec: task lifecycle states `{submitted, working,
completed, failed}` (models.schemas.TaskState, not under src/). -/
inductive TaskState
  | submitted
  | working
  | completed
  | failed
  deriving DecidableEq, Repr, BEq

/-- Modelled from the spec: a file part's content — name, MIME type, and
inline base64 bytes or a remote URI (models.schemas.FileContent). -/
structure FileContent where
  name : String
  mime_type : String
  bytes : Option String
  uri : Option String
  deriving DecidableEq, Repr

/-- Modelled from the spec: one part of a Message — text, file reference, or
structured data (models.schemas parts; the data payload is kept abstract). -/
inductive MsgPart
  | text (text : String)
  | file (file : FileContent)
  | dataPart
  deriving DecidableEq, Repr

/-- Modelled from the spec: a Message is an ordered sequence of parts with an
optional context identifier; identifiers, role and timestamps are elided
because no claim inspects them (models.schemas.Message). -/
structure MessageModel where
  parts : List MsgPart
  context_id : Option String
  deriving DecidableEq, Repr

/-- Modelled from the spec: push-notification authentication — a list of
scheme names plus optional credentials (models.schemas). -/
structure PushNotificationAuthentication where
  schemes : List String
  credentials : Option String
  deriving DecidableEq, Repr

/-- Modelled from the spec: push-notification configuration — callback URL
plus optional authentication (models.schemas.PushNotificationConfig). -/
structure PushNotificationConfig where
  url : Option String
  authentication : Option PushNotificationAuthentication
  deriving DecidableEq, Repr

/-- Modelled from the spec: the optional `configuration` of a message-send
request; only the push-notification part is relevant to the claims
(models.schemas.MessageSendConfiguration). -/
structure MessageSendConfiguration where
  push_notification_config : Option PushNotificationConfig
  deriving DecidableEq, Repr

/-- Modelled from the spec: `message/send` parameters — the message and an
optional configuration (models.schemas.MessageSendParams). -/
structure MessageSendParams where
  message : MessageModel
  configuration : Option MessageSendConfiguration
  deriving DecidableEq, Repr

/-- common/a2a.py `WebhookDetails`: target URL, first-party flag, credential. -/
structure WebhookDetails where
  url : Option String
  is_telex : Bool
  api_key : Option String
  deriving DecidableEq, Repr

/-- common/a2a.py `MessageParts`: the classified content of a message. -/
structure MessageParts where
  joined_text : String
  text_parts : List String
  file_content_list : List FileContent
  data_count : Nat
  deriving DecidableEq, Repr

/-- Python truthiness of an optional string (`None` and `""` are falsy). -/
def pyTruthyOptStr : Option String → Bool
  | none => false
  | some s => s ≠ ""

/-- common/a2a.py `extract_message_parts`: classify the message parts; filter
files by MIME type only when the filter list is truthy (non-`None` and
non-empty, matching Python `if mime_type_filter:`). -/
def extract_message_parts (parts : List MsgPart) (mime_type_filter : Option (List String)) :
    MessageParts :=
  let text_parts := parts.filterMap fun p => match p with
    | MsgPart.text t => some t
    | _ => none
  let files := parts.filterMap fun p => match p with
    | MsgPart.file f => some f
    | _ => none
  let data_count := (parts.filterMap fun p => match p with
    | MsgPart.dataPart => some ()
    | _ => none).length
  let file_content_list := match mime_type_filter with
    | some fl => if fl.isEmpty then files else files.filter fun f => fl.contains f.mime_type
    | none => files
  { joined_text := joinWith "\n" text_parts
    text_parts := text_parts
    file_content_list := file_content_list
    data_count := data_count }

/-- common/a2a.py `extract_webhook_details`, the `api_key` local variable: it
is assigned only when a push-notification config with an authentication whose
truthy scheme list contains "TelexApiKey" is present. `none` means the local
stays unbound; `some v` means it is bound to the credentials value `v`. -/
def telexApiKeyBinding (params : MessageSendParams) : Option (Option String) :=
  match params.configuration with
  | none => none
  | some cfg =>
    match cfg.push_notification_config with
    | none => none
    | some pnc =>
      match pnc.authentication with
      | none => none
      | some auth =>
        if !auth.schemes.isEmpty && auth.schemes.contains "TelexApiKey" then
          some auth.credentials
        else none

/-- common/a2a.py `extract_webhook_details`: compute the webhook URL, then
build `WebhookDetails(url, is_telex=not (not api_key), api_key)`. Reading
`api_key` when the local was never assigned raises `UnboundLocalError`. -/
def extract_webhook_details (params : MessageSendParams) : Except PyError WebhookDetails :=
  let webhook_url : Option String :=
    match params.configuration with
    | some cfg =>
      match cfg.push_notification_config with
      | some pnc => pnc.url
      | none => none
    | none => none
  match telexApiKeyBinding params with
  | none => Except.error (PyError.unboundLocalError "api_key")
  | some api_key =>
    Except.ok { url := webhook_url, is_telex := pyTruthyOptStr api_key, api_key := api_key }

/-- Outcome of the webhook HTTP POST, as seen by the notifier's `try` block.
`ok status text` means `client.post` returned and bound the local `response`
(`raise_for_status` then raises exactly when `status` is not 2xx, and that
exception is handled with `response` bound); `raisedBeforeBind` means the
POST itself (transport error, timeout, request construction) raised before
the local `response` was ever assigned. -/
inductive PostOutcome
  | ok (status : Nat) (text : String)
  | raisedBeforeBind (msg : String)
  deriving DecidableEq, Repr

/-- Whether `raise_for_status` raises for a bound response. -/
def nonSuccessStatus (status : Nat) : Bool := status < 200 || 300 ≤ status

/-- common/a2a.py `send_webhook_notification` / apps/pdf_to_markdown.py local
copy: the headers sent with the POST — `Content-Type` always, and the
`X-TELEX-API-KEY` credential exactly when `is_telex` is set. -/
def webhookHeaders (wd : WebhookDetails) : List (String × String) :=
  [("Content-Type", "application/json")] ++
    (if wd.is_telex then [("X-TELEX-API-KEY", wd.api_key.getD "")] else [])

/-- Case-sensitive lookup of a header value. -/
def headerLookup : List (String × String) → String → Option String
  | [], _ => none
  | (k, v) :: rest, key => if k = key then some v else headerLookup rest key

/-- common/a2a.py `send_webhook_notification`: every exception inside the
`try` block — transport error, timeout, or the `raise_for_status` of a
non-2xx response — is caught, and the handler logs with
`getattr(locals().get("response"), "text", None)`, which never itself
raises. The function therefore returns normally on every outcome, performing
exactly one POST attempt and never touching the task. -/
def send_webhook_notification_common (_wd : WebhookDetails) (_post : PostOutcome) :
    Except PyError Unit :=
  Except.ok ()

/-- apps/pdf_to_markdown.py local `send_webhook_notification`: same `try`
body, but the `except` handler logs with an f-string that reads
`response.text` directly. When the POST raised before binding the local
`response` (transport error or timeout), that read raises
`UnboundLocalError`, which propagates to the caller; when the response was
bound (including non-2xx statuses), the handler completes and the exception
is swallowed. -/
def send_webhook_notification_pdf (_wd : WebhookDetails) (post : PostOutcome) :
    Except PyError Unit :=
  match post with
  | PostOutcome.ok _ _ => Except.ok ()
  | PostOutcome.raisedBeforeBind _ => Except.error (PyError.unboundLocalError "response")

/-- Whether the PDF agent's local notifier lets an exception escape. -/
def pdfNotifierRaises (post : PostOutcome) : Bool :=
  match send_webhook_notification_pdf { url := none, is_telex := false, api_key := none } post with
  | Except.error _ => true
  | Except.ok _ => false

/-- Modelled from the spec: an Artifact — name, description, ordered output
parts (text contents) and zero-based index (models.schemas.Artifact). -/
structure Artifact where
  name : String
  description : String
  parts : List String
  index : Nat
  deriving DecidableEq, Repr

/-- Oracles for the PDF worker's external collaborators:
`download` is common/a2a.py `download_file_content` (raises `RuntimeError`
text on failure), `isValidB64` is `base64.b64decode` validity, and `extract`
is apps/pdf_to_markdown.py `extract_pdf_text`, which by construction returns
either the page text or a string starting with "Error extracting". -/
structure PdfEnv where
  download : Option String → Except String String
  isValidB64 : String → Bool
  extract : String → String

/-- apps/pdf_to_markdown.py `decode_base64_file`: take the chunk after the
first comma when one is present, check it decodes, and return it as a base64
string (raising `ValueError` text otherwise). -/
def decode_base64_file (isValidB64 : String → Bool) (s : String) : Except String String :=
  let base64_data := if s.data.contains ',' then String.mk (afterFirstCommaChunk s.data) else s
  if isValidB64 base64_data then Except.ok base64_data
  else Except.error "Failed to decode base64 data: invalid base64"

/-- apps/pdf_to_markdown.py worker, one file's acquisition: inline bytes when
truthy, otherwise a remote download of the URI. -/
def acquireBytes (env : PdfEnv) (fc : FileContent) : Except String String :=
  match fc.bytes with
  | some b => if b ≠ "" then Except.ok b else env.download fc.uri
  | none => env.download fc.uri

/-- apps/pdf_to_markdown.py worker, one file's full pipeline: acquire bytes,
decode, extract text (any step may raise into the per-file handler). -/
def pdfFileText (env : PdfEnv) (fc : FileContent) : Except String String := do
  let base64_string ← acquireBytes env fc
  let pdf_b64 ← decode_base64_file env.isValidB64 base64_string
  pure (env.extract pdf_b64)

/-- Whether one file converts successfully in the worker loop: no exception,
and the extracted text is not an "Error"-flagged payload. -/
def pdfFileSucceeds (env : PdfEnv) (fc : FileContent) : Bool :=
  match pdfFileText env fc with
  | Except.error _ => false
  | Except.ok t => !(startsWithText t "Error")

/-- The response part the worker loop records for one file. -/
def pdfResponsePart (env : PdfEnv) (fc : FileContent) : String :=
  match pdfFileText env fc with
  | Except.error e => "❌ Error processing " ++ fc.name ++ ": " ++ e
  | Except.ok pdf_text =>
    if startsWithText pdf_text "Error" then "❌ " ++ pdf_text
    else "✅ Successfully converted " ++ fc.name ++ " to markdown"

/-- apps/pdf_to_markdown.py `process_pdf_task_background`, the per-file loop
(lines 118–149): each file is handled inside its own `try`; a failure records
a "❌" part and continues; a success appends a `{name}.md` artifact (index =
artifacts so far) and a "✅" part. -/
def pdfWorkerLoop (env : PdfEnv) :
    List FileContent → List String → List Artifact → List String × List Artifact
  | [], response_parts, artifacts => (response_parts, artifacts)
  | fc :: rest, response_parts, artifacts =>
    match pdfFileText env fc with
    | Except.error e =>
      pdfWorkerLoop env rest
        (response_parts ++ ["❌ Error processing " ++ fc.name ++ ": " ++ e]) artifacts
    | Except.ok pdf_text =>
      if startsWithText pdf_text "Error" then
        pdfWorkerLoop env rest (response_parts ++ ["❌ " ++ pdf_text]) artifacts
      else
        pdfWorkerLoop env rest
          (response_parts ++ ["✅ Successfully converted " ++ fc.name ++ " to markdown"])
          (artifacts ++ [{ name := fc.name ++ ".md",
                           description := "Markdown conversion of " ++ fc.name,
                           parts := [pdf_text],
                           index := artifacts.length }])

/-- Observable outcome of one run of the PDF background worker:
the sequence of states it assigns to the stored task (creation's `submitted`
not included), the completion message's text parts, the artifact list set on
the task, and whether an exception escaped the worker. -/
structure PdfWorkerResult where
  stateTrace : List TaskState
  completionParts : List String
  artifacts : List Artifact
  raised : Bool
  deriving DecidableEq, Repr

/-- apps/pdf_to_markdown.py `process_pdf_task_background` (lines 104–187):
set `working`, run the per-file loop (which cannot raise), build the
completion message, set `completed` with the artifacts, then call the local
notifier with outcome `finalPost`. If that notifier raises, the outer
`except` sets the task to `failed` and calls the notifier again with outcome
`failurePost`; a raise there escapes the worker. -/
def process_pdf_task_background (env : PdfEnv) (files : List FileContent)
    (finalPost failurePost : PostOutcome) : PdfWorkerResult :=
  let r := pdfWorkerLoop env files [] []
  if pdfNotifierRaises finalPost then
    { stateTrace := [TaskState.working, TaskState.completed, TaskState.failed]
      completionParts := r.1
      artifacts := r.2
      raised := pdfNotifierRaises failurePost }
  else
    { stateTrace := [TaskState.working, TaskState.completed]
      completionParts := r.1
      artifacts := r.2
      raised := false }

/-- The lifecycle invariant exactly as the spec states it: the full status
sequence of a task (from creation) is `submitted`, then `working`, then at
most one of `completed` or `failed`, with no skipped or revisited state and
nothing after a terminal state. -/
def lifecycleOk (trace : List TaskState) : Bool :=
  trace == [TaskState.submitted]
    || trace == [TaskState.submitted, TaskState.working]
    || trace == [TaskState.submitted, TaskState.working, TaskState.completed]
    || trace == [TaskState.submitted, TaskState.working, TaskState.failed]

/-- The Python value handed to `stream_pdf_processing`: the generator expects
a dict of `filename -> base64 string` and iterates `.items()`, but its caller
`handle_json_rpc` passes the extracted `file_content_list`, a list of
`FileContent` objects. -/
inductive PyFilesValue
  | ofList (files : List FileContent)
  | ofDict (entries : List (String × String))
  deriving Repr

/-- One dict entry's frames in apps/pdf_to_markdown.py `stream_pdf_processing`
(lines 194–253): a processing update, then the extracted text, an "❌"-flagged
extraction error, or an "❌ Error processing" frame if a step raised. Frames
are modelled by their message text (the JSON-RPC envelope adds only ids). -/
def streamFramesForEntry (env : PdfEnv) (filename content : String) : List String :=
  ["Processing PDF: **" ++ filename ++ "**"] ++
    (match decode_base64_file env.isValidB64 content with
     | Except.error e => ["❌ Error processing " ++ filename ++ ": " ++ e]
     | Except.ok pdf_b64 =>
       let pdf_text := env.extract pdf_b64
       if startsWithText pdf_text "Error" then ["❌ " ++ pdf_text] else [pdf_text])

/-- apps/pdf_to_markdown.py `stream_pdf_processing`: the generator's first
statement iterates `unique_pdf_files.items()`. On the dict it was written
for, it yields the per-entry frames; on the list its caller actually passes,
`.items()` raises `AttributeError` before the first frame, killing the
stream. The result is the yielded frames plus the escaping exception, if
any. -/
def stream_pdf_processing (env : PdfEnv) (arg : PyFilesValue) :
    List String × Option PyError :=
  match arg with
  | PyFilesValue.ofList _ =>
    ([], some (PyError.attributeError "list object has no attribute items"))
  | PyFilesValue.ofDict entries =>
    ((entries.map fun e => streamFramesForEntry env e.1 e.2).flatten, none)

/-- Modelled from the spec: a task's current status — lifecycle state plus the
optional status message's text parts (models.schemas.TaskStatus; timestamps
elided). -/
structure TaskStatusModel where
  state : TaskState
  messageParts : List String
  deriving DecidableEq, Repr

/-- Modelled from the spec: a Task — identifier, context identifier, current
status, artifacts, and message history (models.schemas.Task). -/
structure TaskModel where
  id : String
  context_id : String
  status : TaskStatusModel
  artifacts : List Artifact
  history : List MessageModel
  deriving DecidableEq, Repr

/-- Result of one agent endpoint invocation: an immediate agent Message (its
text), a streaming response body (frames plus the generator's escaping
exception, if any), a Task snapshot, a structured JSON-RPC error, or an
unhandled exception escaping the handler. -/
inductive RpcResult
  | message (text : String)
  | streamBody (frames : List String) (crash : Option PyError)
  | taskSnapshot (task : TaskModel)
  | rpcError (code : Int) (message : String)
  | crashed (e : PyError)
  deriving DecidableEq, Repr

/-- Lookup in the in-memory task store (`active_tasks`, an association list):
Python `task_id in active_tasks` / indexing. -/
def lookupStore : List (String × TaskModel) → String → Option TaskModel
  | [], _ => none
  | (k, t) :: rest, key => if k = key then some t else lookupStore rest key

/-- Kind of message request hitting an agent's JSON-RPC endpoint. -/
inductive RpcKind
  | sendMessage
  | streamMessage
  deriving DecidableEq, Repr, BEq

/-- Python `a or b` for the context id: the message's context id when truthy,
else the freshly generated hex. -/
def contextIdOr (given : Option String) (fresh : String) : String :=
  match given with
  | some c => if c ≠ "" then c else fresh
  | none => fresh

/-- The PDF agent's fixed no-content reply text. -/
def pdfNoContentText : String :=
  "No PDF files detected. Please upload a PDF file to convert to Markdown."

/-- apps/pdf_to_markdown.py `handle_json_rpc`, `message/send` and
`message/stream` branch (lines 280–343): extract parts filtered to PDF MIME
types; with no PDF files return the fixed Message and leave the store
untouched; otherwise call `extract_webhook_details` (which can raise); then
either stream (`message/stream`, or no webhook URL) or create a `submitted`
task, store it, schedule the background worker and return the snapshot.
`newTaskId`/`newContextId` stand for the generated uuid hex values. -/
def handle_json_rpc_pdf (env : PdfEnv) (kind : RpcKind) (params : MessageSendParams)
    (newTaskId newContextId : String) (store : List (String × TaskModel)) :
    RpcResult × List (String × TaskModel) :=
  let content_parts := extract_message_parts params.message.parts (some ["application/pdf", "pdf"])
  if content_parts.file_content_list.length = 0 then
    (RpcResult.message pdfNoContentText, store)
  else
    match extract_webhook_details params with
    | Except.error e => (RpcResult.crashed e, store)
    | Except.ok webhook_details =>
      if kind == RpcKind.streamMessage || !(pyTruthyOptStr webhook_details.url) then
        let body := stream_pdf_processing env (PyFilesValue.ofList content_parts.file_content_list)
        (RpcResult.streamBody body.1 body.2, store)
      else
        let task : TaskModel :=
          { id := newTaskId
            context_id := contextIdOr params.message.context_id newContextId
            status := { state := TaskState.submitted, messageParts := [] }
            artifacts := []
            history := [params.message] }
        (RpcResult.taskSnapshot task, store ++ [(newTaskId, task)])

/-- apps/pdf_to_markdown.py / apps/text_to_speech.py `handle_json_rpc`,
`tasks/get` branch: return the stored snapshot when the identifier is truthy
and present, else the structured 404 error. -/
def handle_tasks_get (task_id : String) (store : List (String × TaskModel)) : RpcResult :=
  if task_id = "" then RpcResult.rpcError 404 "Task not found"
  else
    match lookupStore store task_id with
    | some task => RpcResult.taskSnapshot task
    | none => RpcResult.rpcError 404 "Task not found"

/-- Successful outcome of the external Gemini TTS call, as the code consumes
it: the base64 WAV audio and the already-"%.1f"-formatted duration text. -/
structure TtsAudio where
  audio_base64 : String
  durationText : String
  deriving DecidableEq, Repr

/-- Observable outcome of one run of a TTS background worker. -/
structure TtsWorkerResult where
  stateTrace : List TaskState
  completionParts : List String
  artifactCount : Nat
  notified : Nat
  deriving DecidableEq, Repr

/-- apps/text_to_speech.py `process_tts_task_background` (lines 138–238):
set `working`, notify, then run the transform inside an inner `try`; a
transform failure is caught inline and recorded as an "❌" part with no
artifact (the file save swallows its own errors). Either way the task is
then set to `completed` with the collected parts and notified again via the
shared notifier (which never raises). The `failed` branch is reachable only
from code outside the inner `try`. -/
def process_tts_task_background (text_content : String)
    (transform : Except String TtsAudio) : TtsWorkerResult :=
  let inner : List String × Nat :=
    match transform with
    | Except.error e => (["❌ Error processing text-to-speech: " ++ e], 0)
    | Except.ok audio =>
      (["✅ Successfully converted " ++ toString (wordCountOf text_content)
          ++ " words to speech audio (" ++ audio.durationText ++ " seconds)"], 1)
  { stateTrace := [TaskState.working, TaskState.completed]
    completionParts := inner.1
    artifactCount := inner.2
    notified := 2 }

/-- services/task_handler.py `process_tts_task_background` (lines 19–105):
set `working`, run the transform directly in the outer `try` (the file save
swallows its own errors and the MinIO upload failure is caught separately);
a transform raise reaches the outer `except`, which sets `failed` with a
"❌ Task failed" message and notifies; on success the task is set to
`completed` with one artifact and notified. -/
def services_process_tts_task_background (transform : Except String TtsAudio)
    (_uploadOk : Bool) : TtsWorkerResult :=
  match transform with
  | Except.error e =>
    { stateTrace := [TaskState.working, TaskState.failed]
      completionParts := ["❌ Task failed: " ++ e]
      artifactCount := 0
      notified := 1 }
  | Except.ok audio =>
    { stateTrace := [TaskState.working, TaskState.completed]
      completionParts := ["✅ Successfully converted text to speech ("
                            ++ audio.durationText ++ "s)"]
      artifactCount := 1
      notified := 1 }

/-- apps/text_to_speech.py `stream_tts_processing` (lines 241–302): a
processing update frame, then a success frame or an "❌" error frame; the
whole generator body sits inside one `try`, so no exception escapes it. -/
def stream_tts_processing (text_content : String) (transform : Except String TtsAudio) :
    List String × Option PyError :=
  (["Converting text to speech..."] ++
     (match transform with
      | Except.ok audio =>
        ["✅ Converted " ++ toString (wordCountOf text_content)
           ++ " words to speech audio (" ++ audio.durationText ++ " seconds)"]
      | Except.error e => ["❌ Error converting text to speech: " ++ e]), none)

/-- apps/text_to_speech.py lines 389–409: the instruction words stripped from
the user input before conversion. -/
def instruction_words : List String :=
  ["convert to speech", "text to speech", "tts", "speak this", "read this",
   "make audio", "generate speech", "alloy", "echo", "fable", "onyx", "nova",
   "shimmer", "kore", "male", "female", "man", "woman", "voice"]

/-- apps/text_to_speech.py lines 388–418: remove each instruction word (with
a strip after each removal), collapse runs of whitespace, and fall back to
the original input when nothing remains. -/
def computeTextToConvert (user_input : String) : String :=
  let t := instruction_words.foldl (fun acc w => stripText (removeOccurrences acc w)) user_input
  let t := joinWith " " (splitWords t)
  if t = "" then user_input else t

/-- The TTS agent's fixed no-content reply text. -/
def ttsNoContentText : String :=
  "No text content detected. Please provide text to convert to speech."

/-- apps/text_to_speech.py `handle_json_rpc`, `message/send` and
`message/stream` branch (lines 360–462): extract parts (files filtered to
text/plain), strip the joined text; when empty return the fixed Message and
leave the store untouched; otherwise compute the text to convert, call
`extract_webhook_details` (which can raise), then stream or create a
`submitted` task exactly as the PDF agent does. The Gemini transform outcome
enters as the `transform` oracle. -/
def handle_json_rpc_tts (kind : RpcKind) (transform : Except String TtsAudio)
    (params : MessageSendParams) (newTaskId newContextId : String)
    (store : List (String × TaskModel)) : RpcResult × List (String × TaskModel) :=
  let content_parts := extract_message_parts params.message.parts (some ["text/plain"])
  let user_input := stripText content_parts.joined_text
  if user_input = "" then
    (RpcResult.message ttsNoContentText, store)
  else
    let text_to_convert := computeTextToConvert user_input
    match extract_webhook_details params with
    | Except.error e => (RpcResult.crashed e, store)
    | Except.ok webhook_details =>
      if kind == RpcKind.streamMessage || !(pyTruthyOptStr webhook_details.url) then
        let body := stream_tts_processing text_to_convert transform
        (RpcResult.streamBody body.1 body.2, store)
      else
        let task : TaskModel :=
          { id := newTaskId
            context_id := contextIdOr params.message.context_id newContextId
            status := { state := TaskState.submitted, messageParts := [] }
            artifacts := []
            history := [params.message] }
        (RpcResult.taskSnapshot task, store ++ [(newTaskId, task)])

/-- apps/request_handler.py: the agent capability document consumed by the
gateway (schemas.AgentCapabilities). -/
structure AgentCapabilities where
  streaming : Bool
  push_notifications : Bool
  state_transition_history : Bool
  deriving DecidableEq, Repr

/-- The three delivery strategies the gateway dispatches to. -/
inductive DeliveryStrategy
  | pushBackground (callbackUrl : String)
  | forwardStream
  | blockingCall
  deriving DecidableEq, Repr

/-- apps/request_handler.py `submit_message` (lines 120–155): after a
successful capability fetch, branch `if push_notifications / elif streaming /
else`; the push branch registers `{base_url}/webhook/{stream_id}` — the
gateway's own webhook-intake endpoint — as the callback URL and dispatches
the request as a background task. -/
def submit_message_delivery (caps : AgentCapabilities) (base_url stream_id : String) :
    DeliveryStrategy :=
  if caps.push_notifications then
    DeliveryStrategy.pushBackground (base_url ++ "/webhook/" ++ stream_id)
  else if caps.streaming then DeliveryStrategy.forwardStream
  else DeliveryStrategy.blockingCall

/-- An entry pushed into a gateway stream queue. -/
inductive QueueItem
  | resultJson (payload : String)
  | errorJson (message : String)
  | doneMark
  deriving DecidableEq, Repr

/-- Outcome of the blocking POST to the agent, as `send_blocking_to_sse`
sees it: either the call (or `raise_for_status`, or response parsing) raised,
or a response envelope with an optional error and an optional result came
back. -/
inductive BlockingOutcome
  | raised (msg : String)
  | responseOk (error : Option (Int × String)) (result : Option String)
  deriving DecidableEq, Repr

/-- apps/request_handler.py `send_blocking_to_sse` (lines 239–263): push the
response's error if set, else its result if set, then the done sentinel; on
any exception push an error payload and the sentinel. -/
def send_blocking_to_sse (outcome : BlockingOutcome) : List QueueItem :=
  match outcome with
  | BlockingOutcome.raised msg => [QueueItem.errorJson msg, QueueItem.doneMark]
  | BlockingOutcome.responseOk err res =>
    (match err with
     | some e => [QueueItem.errorJson e.2]
     | none =>
       match res with
       | some r => [QueueItem.resultJson r]
       | none => []) ++ [QueueItem.doneMark]

/-- Concrete oracle environment used by concrete runs: remote downloads fail,
every string passes base64 validation, and extraction prepends a page
header. -/
def envFixture : PdfEnv :=
  { download := fun _ => Except.error "Failed to download file"
    isValidB64 := fun _ => true
    extract := fun s => "## Page 1\n\n" ++ s }

/-- A PDF file part with inline base64 bytes that converts successfully under
`envFixture`. -/
def fcGoodFixture : FileContent :=
  { name := "a.pdf", mime_type := "application/pdf", bytes := some "QUJD", uri := none }

/-- A PDF file part with only a URI, whose download fails under
`envFixture`. -/
def fcBadFixture : FileContent :=
  { name := "bad.pdf", mime_type := "application/pdf", bytes := none,
    uri := some "https://files.example/bad.pdf" }

/-- A stored task snapshot used by concrete runs. -/
def taskFixture : TaskModel :=
  { id := "t1", context_id := "c1",
    status := { state := TaskState.submitted, messageParts := [] },
    artifacts := [], history := [] }

/-- The end-to-end scenario A file: `a.pdf` with valid base64 PDF bytes. -/
def scenarioAFile : FileContent :=
  { name := "a.pdf", mime_type := "application/pdf",
    bytes := some "JVBERi0xLjQK", uri := none }

/-- The end-to-end scenario A submission: empty text, the one PDF file, and
no push-notification configured. -/
def scenarioAParams : MessageSendParams :=
  { message := { parts := [MsgPart.text "", MsgPart.file scenarioAFile], context_id := none }
    configuration := none }

/-- C6: for every webhook notification delivery, the POST carries the
`X-TELEX-API-KEY` header with the configured credential exactly when
`is_telex` is true, and the header is absent when `is_telex` is false. -/
theorem webhook_header_iff_is_telex (wd : WebhookDetails) :
    (wd.is_telex = true →
       headerLookup (webhookHeaders wd) "X-TELEX-API-KEY" = some (wd.api_key.getD ""))
    ∧ (wd.is_telex = false →
       headerLookup (webhookHeaders wd) "X-TELEX-API-KEY" = none) := by
  constructor <;> intro h <;> simp [webhookHeaders, h, headerLookup]

/-- Witness for C6: a first-party delivery carries the credential header. -/
theorem webhook_header_iff_is_telex_witness :
    headerLookup
        (webhookHeaders { url := some "https://ping.telex.im/hook", is_telex := true,
                          api_key := some "secret-key" }) "X-TELEX-API-KEY"
      = some "secret-key" :=
  (webhook_header_iff_is_telex
    { url := some "https://ping.telex.im/hook", is_telex := true,
      api_key := some "secret-key" }).1 rfl

/-- C7 (divergence witness): on a transport error the PDF agent's local
`send_webhook_notification` raises `UnboundLocalError` out of its own
`except` handler — the handler's log line reads the never-bound `response`
local — while the shared notifier in common/a2a.py swallows the same
outcome. -/
theorem pdf_notifier_raises_on_transport_error :
    send_webhook_notification_pdf
        { url := some "https://cb.example/hook", is_telex := true, api_key := some "k" }
        (PostOutcome.raisedBeforeBind "httpx.ConnectTimeout")
      = Except.error (PyError.unboundLocalError "response")
    ∧ send_webhook_notification_common
        { url := some "https://cb.example/hook", is_telex := true, api_key := some "k" }
        (PostOutcome.raisedBeforeBind "httpx.ConnectTimeout")
      = Except.ok () :=
  ⟨rfl, rfl⟩

/-- C5: the gateway picks the delivery strategy in the fixed priority order
push-notification > streaming > blocking; the push branch registers the
gateway's own webhook-intake URL; the blocking branch pushes the one result
(or error) followed by the done sentinel. -/
theorem gateway_capability_priority (caps : AgentCapabilities)
    (base_url stream_id : String) (err : Int × String) (res msg : String)
    (r : Option String) :
    (caps.push_notifications = true →
       submit_message_delivery caps base_url stream_id
         = DeliveryStrategy.pushBackground (base_url ++ "/webhook/" ++ stream_id))
    ∧ (caps.push_notifications = false → caps.streaming = true →
       submit_message_delivery caps base_url stream_id = DeliveryStrategy.forwardStream)
    ∧ (caps.push_notifications = false → caps.streaming = false →
       submit_message_delivery caps base_url stream_id = DeliveryStrategy.blockingCall)
    ∧ send_blocking_to_sse (BlockingOutcome.responseOk none (some res))
        = [QueueItem.resultJson res, QueueItem.doneMark]
    ∧ send_blocking_to_sse (BlockingOutcome.responseOk (some err) r)
        = [QueueItem.errorJson err.2, QueueItem.doneMark]
    ∧ send_blocking_to_sse (BlockingOutcome.raised msg)
        = [QueueItem.errorJson msg, QueueItem.doneMark] := by
  refine ⟨?_, ?_, ?_, rfl, rfl, rfl⟩
  · intro h; simp [submit_message_delivery, h]
  · intro h1 h2; simp [submit_message_delivery, h1, h2]
  · intro h1 h2; simp [submit_message_delivery, h1, h2]

/-- Witness for C5: a push-capable agent gets the webhook strategy with the
gateway's own intake URL. -/
theorem gateway_capability_priority_witness :
    submit_message_delivery
        { streaming := true, push_notifications := true, state_transition_history := false }
        "http://gw" "s1"
      = DeliveryStrategy.pushBackground "http://gw/webhook/s1" :=
  (gateway_capability_priority
    { streaming := true, push_notifications := true, state_transition_history := false }
    "http://gw" "s1" (404, "e") "r" "m" none).1 rfl

/-- C9: `tasks/get` answers a structured `{code: 404, message: "Task not
found"}` error for an absent identifier, and the stored snapshot for a
present (non-empty, as every generated uuid hex is) identifier. -/
theorem tasks_get_snapshot_or_404 (store : List (String × TaskModel)) (task_id : String) :
    (lookupStore store task_id = none →
       handle_tasks_get task_id store = RpcResult.rpcError 404 "Task not found")
    ∧ (∀ task, task_id ≠ "" → lookupStore store task_id = some task →
       handle_tasks_get task_id store = RpcResult.taskSnapshot task) := by
  constructor
  · intro h
    by_cases he : task_id = "" <;> simp [handle_tasks_get, he, h]
  · intro task hne h
    simp [handle_tasks_get, hne, h]

/-- Witness for C9: a never-created identifier yields the 404 error and a
stored identifier yields its snapshot. -/
theorem tasks_get_snapshot_or_404_witness :
    handle_tasks_get "missing" [("t1", taskFixture)] = RpcResult.rpcError 404 "Task not found"
    ∧ handle_tasks_get "t1" [("t1", taskFixture)] = RpcResult.taskSnapshot taskFixture :=
  ⟨(tasks_get_snapshot_or_404 [("t1", taskFixture)] "missing").1 rfl,
   (tasks_get_snapshot_or_404 [("t1", taskFixture)] "t1").2 taskFixture (by decide) rfl⟩

/-- Counterexample for C2: a run of the text_to_speech in-app background
worker whose transform fails ends in `completed`, not `failed` — the inner
`except` folds the error into the completion message. -/
theorem tts_transform_failure_completes_not_fails :
    (process_tts_task_background "hello world" (Except.error "Gemini API refused")).stateTrace
      = [TaskState.working, TaskState.completed]
    ∧ TaskState.completed ≠ TaskState.failed :=
  ⟨rfl, by decide⟩

/-- C2 (amended): on a transform failure the in-app text_to_speech worker
records the error text in the completion message but transitions the task to
`completed` (still notifying twice), while the services/task_handler worker
builds a "❌ Task failed" Message, transitions to `failed`, and notifies. -/
theorem tts_worker_failure_paths (e txt : String) (u : Bool) :
    ((process_tts_task_background txt (Except.error e)).stateTrace
        = [TaskState.working, TaskState.completed]
      ∧ (process_tts_task_background txt (Except.error e)).completionParts
        = ["❌ Error processing text-to-speech: " ++ e]
      ∧ (process_tts_task_background txt (Except.error e)).notified = 2)
    ∧ ((services_process_tts_task_background (Except.error e) u).stateTrace
        = [TaskState.working, TaskState.failed]
      ∧ (services_process_tts_task_background (Except.error e) u).completionParts
        = ["❌ Task failed: " ++ e]
      ∧ (services_process_tts_task_background (Except.error e) u).notified = 1) :=
  ⟨⟨rfl, rfl, rfl⟩, ⟨rfl, rfl, rfl⟩⟩

/-- C1 (divergence witness): when the final webhook POST of a successful PDF
task hits a transport error, the local notifier's `UnboundLocalError` reaches
the worker's outer `except`, which overwrites the already-`completed` status
with `failed` — the full status sequence `submitted, working, completed,
failed` violates the spec's lifecycle invariant. -/
theorem pdf_task_terminal_state_overwritten :
    (process_pdf_task_background envFixture [fcGoodFixture]
        (PostOutcome.raisedBeforeBind "httpx.ConnectError") (PostOutcome.ok 200 "ok")).stateTrace
      = [TaskState.working, TaskState.completed, TaskState.failed]
    ∧ lifecycleOk
        [TaskState.submitted, TaskState.working, TaskState.completed, TaskState.failed]
      = false :=
  ⟨rfl, by decide⟩

/-- C3 (divergence witness): the scenario-A `message/stream` submission never
produces its two SSE frames: the handler crashes in `extract_webhook_details`
(no TelexApiKey scheme, so `api_key` is unbound) before returning a stream,
and the streaming generator itself dies on `.items()` over the list its
caller passes, before the first frame. -/
theorem scenarioA_stream_crashes :
    handle_json_rpc_pdf envFixture RpcKind.streamMessage scenarioAParams "task0" "ctx0" []
      = (RpcResult.crashed (PyError.unboundLocalError "api_key"), [])
    ∧ stream_pdf_processing envFixture (PyFilesValue.ofList [scenarioAFile])
      = ([], some (PyError.attributeError "list object has no attribute items")) :=
  ⟨rfl, rfl⟩

/-- C10: whenever no "TelexApiKey" authentication scheme is bound (including
an absent configuration or push-notification config), `extract_webhook_details`
raises `UnboundLocalError` instead of returning `is_telex=false`; both agent
handlers call it right after content validation, so every request with
recognized content then crashes with no streaming response and no task
created. -/
theorem extract_webhook_details_unbound_api_key (env : PdfEnv)
    (transform : Except String TtsAudio) (params : MessageSendParams)
    (h : telexApiKeyBinding params = none) :
    extract_webhook_details params = Except.error (PyError.unboundLocalError "api_key")
    ∧ (∀ kind tid cid store,
        (extract_message_parts params.message.parts
            (some ["application/pdf", "pdf"])).file_content_list ≠ [] →
        handle_json_rpc_pdf env kind params tid cid store
          = (RpcResult.crashed (PyError.unboundLocalError "api_key"), store))
    ∧ (∀ kind tid cid store,
        stripText (extract_message_parts params.message.parts
            (some ["text/plain"])).joined_text ≠ "" →
        handle_json_rpc_tts kind transform params tid cid store
          = (RpcResult.crashed (PyError.unboundLocalError "api_key"), store)) := by
  have hx : extract_webhook_details params = Except.error (PyError.unboundLocalError "api_key") := by
    unfold extract_webhook_details
    rw [h]
  refine ⟨hx, ?_, ?_⟩
  · intro kind tid cid store hne
    have hlen : ¬((extract_message_parts params.message.parts
        (some ["application/pdf", "pdf"])).file_content_list.length = 0) := by
      simpa [List.length_eq_zero] using hne
    simp [handle_json_rpc_pdf, hlen, hx]
  · intro kind tid cid store hne
    simp [handle_json_rpc_tts, hne, hx]

/-- Witness for C10: the scenario-A parameters (no configuration at all) make
`extract_webhook_details` raise. -/
theorem extract_webhook_details_unbound_witness :
    extract_webhook_details scenarioAParams
      = Except.error (PyError.unboundLocalError "api_key") :=
  (extract_webhook_details_unbound_api_key envFixture (Except.error "e") scenarioAParams rfl).1

/-- C8: a submission with zero recognized content parts (no PDF file for the
PDF agent; no non-empty stripped text for the TTS agent) gets the agent's
fixed no-content Message immediately, and the task store is left unchanged. -/
theorem no_content_immediate_message (env : PdfEnv) (kind : RpcKind)
    (transform : Except String TtsAudio) (params : MessageSendParams)
    (tid cid : String) (store : List (String × TaskModel)) :
    ((extract_message_parts params.message.parts
        (some ["application/pdf", "pdf"])).file_content_list = [] →
       handle_json_rpc_pdf env kind params tid cid store
         = (RpcResult.message pdfNoContentText, store))
    ∧ (stripText (extract_message_parts params.message.parts
        (some ["text/plain"])).joined_text = "" →
       handle_json_rpc_tts kind transform params tid cid store
         = (RpcResult.message ttsNoContentText, store)) := by
  constructor
  · intro h
    simp [handle_json_rpc_pdf, h]
  · intro h
    simp [handle_json_rpc_tts, h]

/-- Witness for C8: a text-only submission to the PDF agent and a
whitespace-only submission to the TTS agent both get the fixed reply with no
task stored. -/
theorem no_content_immediate_message_witness :
    handle_json_rpc_pdf envFixture RpcKind.sendMessage
        { message := { parts := [MsgPart.text "hi there"], context_id := none },
          configuration := none } "t" "c" []
      = (RpcResult.message pdfNoContentText, [])
    ∧ handle_json_rpc_tts RpcKind.sendMessage (Except.error "e")
        { message := { parts := [MsgPart.text "   "], context_id := none },
          configuration := none } "t" "c" []
      = (RpcResult.message ttsNoContentText, []) :=
  ⟨(no_content_immediate_message envFixture RpcKind.sendMessage (Except.error "e")
      { message := { parts := [MsgPart.text "hi there"], context_id := none },
        configuration := none } "t" "c" []).1 rfl,
   (no_content_immediate_message envFixture RpcKind.sendMessage (Except.error "e")
      { message := { parts := [MsgPart.text "   "], context_id := none },
        configuration := none } "t" "c" []).2 rfl⟩

/-- Appending on the right preserves a string prefix. -/
theorem startsWithText_append (s t p : String) (h : startsWithText s p = true) :
    startsWithText (s ++ t) p = true := by
  simp only [startsWithText, List.isPrefixOf_iff_prefix, String.data_append] at h ⊢
  exact h.trans (List.prefix_append s.data t.data)

/-- A file that does not convert successfully gets a response part flagged
with the "❌" failure marker (either branch of the worker loop). -/
theorem pdfResponsePart_failure_marked (env : PdfEnv) (fc : FileContent)
    (h : pdfFileSucceeds env fc = false) :
    startsWithText (pdfResponsePart env fc) "❌" = true := by
  unfold pdfFileSucceeds at h
  unfold pdfResponsePart
  cases hft : pdfFileText env fc with
  | error e =>
    apply startsWithText_append
    apply startsWithText_append
    apply startsWithText_append
    decide
  | ok t =>
    rw [hft] at h
    replace h : (!startsWithText t "Error") = false := h
    rw [Bool.not_eq_false'] at h
    simpa [h] using startsWithText_append "❌ " t "❌" (by decide)

/-- The response parts collected by the PDF worker loop are exactly one part
per input file, in input order. -/
theorem pdfWorkerLoop_parts (env : PdfEnv) (files : List FileContent)
    (ps : List String) (arts : List Artifact) :
    (pdfWorkerLoop env files ps arts).1 = ps ++ files.map (pdfResponsePart env) := by
  induction files generalizing ps arts with
  | nil => simp [pdfWorkerLoop]
  | cons fc rest ih =>
    cases hft : pdfFileText env fc with
    | error e =>
      simp [pdfWorkerLoop, hft, pdfResponsePart, ih]
    | ok t =>
      cases hs : startsWithText t "Error" with
      | true => simp [pdfWorkerLoop, hft, hs, pdfResponsePart, ih]
      | false => simp [pdfWorkerLoop, hft, hs, pdfResponsePart, ih]

/-- The artifacts collected by the PDF worker loop are named `{file}.md` for
exactly the successfully converted files, in input order. -/
theorem pdfWorkerLoop_artifact_names (env : PdfEnv) (files : List FileContent)
    (ps : List String) (arts : List Artifact) :
    (pdfWorkerLoop env files ps arts).2.map Artifact.name
      = arts.map Artifact.name
        ++ (files.filter fun fc => pdfFileSucceeds env fc).map (fun fc => fc.name ++ ".md") := by
  induction files generalizing ps arts with
  | nil => simp [pdfWorkerLoop]
  | cons fc rest ih =>
    cases hft : pdfFileText env fc with
    | error e =>
      simp [pdfWorkerLoop, hft, pdfFileSucceeds, List.filter_cons, ih]
    | ok t =>
      cases hs : startsWithText t "Error" with
      | true => simp [pdfWorkerLoop, hft, hs, pdfFileSucceeds, List.filter_cons, ih]
      | false => simp [pdfWorkerLoop, hft, hs, pdfFileSucceeds, List.filter_cons, ih]

/-- The worker's completion parts and artifact list come from the per-file
loop regardless of the webhook outcomes. -/
theorem process_pdf_task_background_loop_outputs (env : PdfEnv) (files : List FileContent)
    (finalPost failurePost : PostOutcome) :
    (process_pdf_task_background env files finalPost failurePost).completionParts
        = (pdfWorkerLoop env files [] []).1
    ∧ (process_pdf_task_background env files finalPost failurePost).artifacts
        = (pdfWorkerLoop env files [] []).2 := by
  unfold process_pdf_task_background
  cases pdfNotifierRaises finalPost <;> simp

/-- C4: in a multi-input PDF batch where input `i` fails and input `j`
succeeds, the failure of `i` does not abort the batch — the worker's final
artifact list contains the `{name}.md` artifact for `j`, and the completion
message's text part at position `i` carries the "❌" failure marker. -/
theorem pdf_worker_partial_success (env : PdfEnv) (files : List FileContent)
    (finalPost failurePost : PostOutcome) (i j : Nat)
    (hi : i < files.length) (hj : j < files.length) (_hij : i ≠ j)
    (hfail : pdfFileSucceeds env (files.get ⟨i, hi⟩) = false)
    (hsucc : pdfFileSucceeds env (files.get ⟨j, hj⟩) = true) :
    (∃ a ∈ (process_pdf_task_background env files finalPost failurePost).artifacts,
        a.name = (files.get ⟨j, hj⟩).name ++ ".md")
    ∧ ∃ p, (process_pdf_task_background env files finalPost failurePost).completionParts.get? i
            = some p ∧ startsWithText p "❌" = true := by
  obtain ⟨hparts, harts⟩ :=
    process_pdf_task_background_loop_outputs env files finalPost failurePost
  constructor
  · have hmemj : files.get ⟨j, hj⟩ ∈ files.filter (fun fc => pdfFileSucceeds env fc) :=
      List.mem_filter.mpr ⟨List.get_mem files j hj, hsucc⟩
    have hname : (files.get ⟨j, hj⟩).name ++ ".md"
        ∈ (pdfWorkerLoop env files [] []).2.map Artifact.name := by
      rw [pdfWorkerLoop_artifact_names]
      simp only [List.map_nil, List.nil_append]
      exact List.mem_map.mpr ⟨files.get ⟨j, hj⟩, hmemj, rfl⟩
    obtain ⟨a, ha, haname⟩ := List.mem_map.mp hname
    exact ⟨a, by rw [harts]; exact ha, haname⟩
  · refine ⟨pdfResponsePart env (files.get ⟨i, hi⟩), ?_, pdfResponsePart_failure_marked env _ hfail⟩
    rw [hparts, pdfWorkerLoop_parts]
    simp only [List.nil_append]
    rw [List.get?_map, List.get?_eq_get hi]
    rfl

/-- Witness for C4: a batch of a failing download followed by a good file
yields the `a.pdf.md` artifact and a "❌"-marked part at position 0. -/
theorem pdf_worker_partial_success_witness :
    (∃ a ∈ (process_pdf_task_background envFixture [fcBadFixture, fcGoodFixture]
        (PostOutcome.ok 200 "") (PostOutcome.ok 200 "")).artifacts,
        a.name = ([fcBadFixture, fcGoodFixture].get ⟨1, by decide⟩).name ++ ".md")
    ∧ ∃ p, (process_pdf_task_background envFixture [fcBadFixture, fcGoodFixture]
        (PostOutcome.ok 200 "") (PostOutcome.ok 200 "")).completionParts.get? 0
            = some p ∧ startsWithText p "❌" = true :=
  pdf_worker_partial_success envFixture [fcBadFixture, fcGoodFixture]
    (PostOutcome.ok 200 "") (PostOutcome.ok 200 "") 0 1
    (by decide) (by decide) (by decide) (by decide) (by decide)
